import Mathlib

/-!
Shallow embedding of the docx-to-json service (app/utils.py, app/crud.py,
app/models.py, app/main.py) and proofs about its specified behavior.

Python strings are modeled as Lean `String`; Python byte streams are opaque
and a document is represented by what each library parser would produce on
it; `json.loads` is passed in as a function parameter; machine integers do
not occur on the paths modeled here.
-/

/-- The whitespace characters recognized by Python `str.strip()`. -/
def pyIsSpace (c : Char) : Bool :=
  c = ' ' || c = '\t' || c = '\n' || c = '\r' || c = '\x0b' || c = '\x0c'

/-- Strip of a character list: drop leading and trailing whitespace. -/
def listStrip (l : List Char) : List Char :=
  ((l.dropWhile pyIsSpace).reverse.dropWhile pyIsSpace).reverse

/-- Python `s.strip()`. -/
def pyStrip (s : String) : String :=
  ⟨listStrip s.data⟩

/-- Python `s.startswith(pre)`. -/
def pyStartswith (s pre : String) : Bool :=
  pre.data.isPrefixOf s.data

/-- Python `s.endswith(suf)`. -/
def pyEndswith (s suf : String) : Bool :=
  suf.data.isSuffixOf s.data

/-- Python `s[n:]`. -/
def pyDrop (s : String) (n : Nat) : String :=
  ⟨s.data.drop n⟩

/-- Python `s[:-n]` (for `n ≤ len(s)`; shorter strings give `""`, as in Python). -/
def pyDropRightSlice (s : String) (n : Nat) : String :=
  ⟨s.data.take (s.data.length - n)⟩

/-- Python `sep.join(parts)`. -/
def pyJoin (sep : String) : List String → String
  | [] => ""
  | [s] => s
  | s :: t :: rest => s ++ sep ++ pyJoin sep (t :: rest)

/-- JSON values (the `dict`/`list`/scalar data handled by the app). JSON
numbers are modeled as integers; the claims under proof do not depend on
floating-point literals. Object fields are an ordered association list, as
produced by `json.loads` / consumed by `json.dumps`. -/
inductive Json where
  | null
  | bool (b : Bool)
  | num (n : Int)
  | str (s : String)
  | arr (items : List Json)
  | obj (fields : List (String × Json))

/-- Python `k in d` / `d[k]` on a dict modeled as an ordered field list. -/
def lookupField (fields : List (String × Json)) (k : String) : Option Json :=
  match fields with
  | [] => none
  | (k2, v) :: rest => if k2 = k then some v else lookupField rest k

/-- Lowercase hex digit. -/
def hexDigit (n : Nat) : Char :=
  if n < 10 then Char.ofNat (48 + n) else Char.ofNat (87 + n)

/-- Four lowercase hex digits, as in Python json `\uXXXX` escapes. -/
def hex4 (n : Nat) : String :=
  ⟨[hexDigit (n / 4096 % 16), hexDigit (n / 256 % 16),
    hexDigit (n / 16 % 16), hexDigit (n % 16)]⟩

/-- Escape of one character inside a JSON string literal, following Python
`json.dumps` defaults (`ensure_ascii=True`: printable ASCII kept literal,
everything else escaped, astral characters as surrogate pairs). -/
def pyJsonEscapeChar (c : Char) : String :=
  if c = '"' then "\\\"" else
  if c = '\\' then "\\\\" else
  if c = '\n' then "\\n" else
  if c = '\r' then "\\r" else
  if c = '\t' then "\\t" else
  if c = '\x08' then "\\b" else
  if c = '\x0c' then "\\f" else
  if c.toNat < 32 then "\\u" ++ hex4 c.toNat else
  if c.toNat ≤ 126 then ⟨[c]⟩ else
  if c.toNat < 65536 then "\\u" ++ hex4 c.toNat else
  "\\u" ++ hex4 (55296 + (c.toNat - 65536) / 1024) ++
    "\\u" ++ hex4 (56320 + (c.toNat - 65536) % 1024)

/-- A JSON string literal, as rendered by Python `json.dumps`. -/
def pyJsonQuote (s : String) : String :=
  "\"" ++ String.join (s.data.map pyJsonEscapeChar) ++ "\""

/-- A run of `n` spaces. -/
def spaces (n : Nat) : String :=
  ⟨List.replicate n ' '⟩

mutual

/-- Python `json.dumps(v, indent=2)` rendered with the opening token at
indentation level `ind` (top-level call uses `ind = 0`): empty containers
stay on one line, nonempty containers put each element on its own line
indented two further spaces, separators are `",\n"` and `": "`. -/
def pyJsonDumpsV (ind : Nat) : Json → String
  | .null => "null"
  | .bool true => "true"
  | .bool false => "false"
  | .num n => toString n
  | .str s => pyJsonQuote s
  | .arr [] => "[]"
  | .arr (x :: xs) =>
      "[\n" ++ pyJoin ",\n" (pyJsonDumpsItems (ind + 2) (x :: xs)) ++
        "\n" ++ spaces ind ++ "]"
  | .obj [] => "\x7b\x7d"
  | .obj (f :: fs) =>
      "\x7b\n" ++ pyJoin ",\n" (pyJsonDumpsFields (ind + 2) (f :: fs)) ++
        "\n" ++ spaces ind ++ "\x7d"

/-- The rendered lines of an array body, each prefixed by its indentation. -/
def pyJsonDumpsItems (ind : Nat) : List Json → List String
  | [] => []
  | x :: xs => (spaces ind ++ pyJsonDumpsV ind x) :: pyJsonDumpsItems ind xs

/-- The rendered lines of an object body, each prefixed by its indentation. -/
def pyJsonDumpsFields (ind : Nat) : List (String × Json) → List String
  | [] => []
  | (k, v) :: fs =>
      (spaces ind ++ pyJsonQuote k ++ ": " ++ pyJsonDumpsV ind v) ::
        pyJsonDumpsFields ind fs

end

/-- Python `json.dumps(v, indent=2)` as called in app/utils.py line 174. -/
def pyJsonDumps2 (v : Json) : String :=
  pyJsonDumpsV 0 v

/-- app/models.py `TrainingPair`: one row of the `training_pairs` table. -/
structure TrainingPair where
  id : Nat
  text_content : String
  json_data : Json
  original_filename : Option String

/-- app/utils.py `SUPPORTED_DOC_TYPES`. -/
def SUPPORTED_DOC_TYPES : List String :=
  ["application/pdf",
   "application/vnd.openxmlformats-officedocument.wordprocessingml.document"]

/-- app/utils.py `extract_text_from_pdf` (lines 31-44). The byte stream is
represented by what `PdfReader` produces on it: `none` when the constructor
or iteration raises (the `except` branch returns `""`), otherwise the list
of per-page `page.extract_text()` results in page order. Pages whose text is
falsy (empty) are skipped, each contributing page is followed by `"\n"`, and
the result is stripped. -/
def extract_text_from_pdf (pdfPages : Option (List String)) : String :=
  match pdfPages with
  | none => ""
  | some pages =>
      pyStrip (pages.foldl
        (fun text page_text =>
          if page_text ≠ "" then text ++ page_text ++ "\n" else text)
        "")

/-- app/utils.py `extract_text_from_docx` (lines 47-58). The byte stream is
represented by what `Document` produces on it: `none` when parsing raises
(the `except` branch returns `""`), otherwise the list of paragraph texts in
order; every paragraph (empty included) is followed by `"\n"`, and the
result is stripped. -/
def extract_text_from_docx (docxParas : Option (List String)) : String :=
  match docxParas with
  | none => ""
  | some paras =>
      pyStrip (paras.foldl (fun text para => text ++ para ++ "\n") "")

/-- Outcome of parsing the opaque bytes of an uploaded document with each library
parser: what `PdfReader` would yield (per-page extracted texts; `none` when
it raises) and what `Document` would yield (paragraph texts; `none` when it
raises). -/
structure DocContent where
  pdfPages : Option (List String)
  docxParas : Option (List String)

/-- An uploaded document file: declared metadata plus the outcome of
`await file.read()` (`.error msg` models the read raising with message
`msg`). -/
structure UploadFile where
  filename : String
  content_type : String
  body : Except String DocContent

/-- Model of `fastapi.HTTPException(status_code, detail)`. The detail is a JSON value:
the handlers pass both strings and (in process_query) arbitrary JSON. -/
structure HTTPError where
  status_code : Nat
  detail : Json

/-- app/utils.py `extract_text_from_upload` (lines 61-106): reject
undeclared types with a 400 before reading, then read, dispatch on the
declared type, and return the (possibly empty) extracted text; a read/
processing failure becomes a 500. -/
def extract_text_from_upload (file : UploadFile) : Except HTTPError String :=
  if ¬ SUPPORTED_DOC_TYPES.contains file.content_type then
    .error ⟨400, .str ("Unsupported file type: " ++ file.content_type ++
      ". Please upload PDF or DOCX.")⟩
  else
    match file.body with
    | .error msg =>
        .error ⟨500, .str ("Error processing file " ++ file.filename ++ ": " ++ msg)⟩
    | .ok content =>
        if file.content_type = "application/pdf" then
          .ok (extract_text_from_pdf content.pdfPages)
        else if file.content_type =
            "application/vnd.openxmlformats-officedocument.wordprocessingml.document" then
          .ok (extract_text_from_docx content.docxParas)
        else
          .ok ""

/-- An uploaded JSON file: declared metadata plus the outcome of
`await file.read()` (body text; `.error msg` models the read raising). -/
structure JsonFile where
  filename : String
  content_type : String
  body : Except String String

/-- app/utils.py `parse_json_upload` (lines 109-133). `loads` models
`json.loads` (`none` models `json.JSONDecodeError`): wrong declared content
type is a 400 before the body is read, a read failure is a 500, a decode
failure is a distinct 400, and valid JSON is returned parsed. -/
def parse_json_upload (loads : String → Option Json) (file : JsonFile) :
    Except HTTPError Json :=
  if file.content_type ≠ "application/json" then
    .error ⟨400, .str "JSON file must have content type \x27application/json\x27"⟩
  else
    match file.body with
    | .error msg =>
        .error ⟨500, .str ("Error processing JSON file " ++ file.filename ++ ": " ++ msg)⟩
    | .ok content =>
        match loads content with
        | some json_data => .ok json_data
        | none => .error ⟨400, .str "Invalid JSON file format"⟩

/-- The fixed prompt preamble of `generate_json_with_gemini`
(app/utils.py lines 159-165). -/
def promptHeader : List String :=
  ["You are an assistant that analyzes text documents and generates structured JSON output based on the content.",
   "Follow the format of the examples provided.",
   "Given the following text input, generate the corresponding JSON object.",
   "Output ONLY the JSON object itself, without any introductory text, explanation, or markdown formatting like ```json.",
   "\n--- Examples ---"]

/-- The zero-examples line of the prompt (app/utils.py lines 167-170). -/
def noExamplesNote : String :=
  "\nNo examples provided. Analyze the input text and generate a suitable JSON structure."

/-- The five prompt parts the loop body of app/utils.py lines 172-179
appends for the example carrying 1-based number `i`. -/
def examplePromptParts (i : Nat) (ex : TrainingPair) : List String :=
  ["\nExample " ++ toString i ++ ":",
   "Input Text:",
   "```\n" ++ ex.text_content ++ "\n```",
   "Output JSON:",
   "```json\n" ++ pyJsonDumps2 ex.json_data ++ "\n```"]

/-- The `for i, example in enumerate(examples)` loop, entered with 0-based
index `i` (the loop labels each example `i+1`). -/
def examplesPromptParts (i : Nat) : List TrainingPair → List String
  | [] => []
  | ex :: rest => examplePromptParts (i + 1) ex ++ examplesPromptParts (i + 1) rest

/-- The closing prompt parts (app/utils.py lines 181-183). -/
def promptFooter (input_text : String) : List String :=
  ["\n--- New Input Text ---",
   "```\n" ++ input_text ++ "\n```",
   "\n--- Generated JSON Output ---"]

/-- The complete `prompt_parts` list built by app/utils.py lines 159-183. -/
def promptParts (input_text : String) (examples : List TrainingPair) : List String :=
  promptHeader ++
    (if examples.isEmpty then [noExamplesNote] else examplesPromptParts 0 examples) ++
    promptFooter input_text

/-- The joined prompt `"\n".join(prompt_parts)` (app/utils.py line 186). -/
def fullPrompt (input_text : String) (examples : List TrainingPair) : String :=
  pyJoin "\n" (promptParts input_text examples)

/-- Outcome of `model.generate_content_async(full_prompt)` plus response
inspection: a raised transport/service error (caught at app/utils.py line
268), a safety block (`response.candidates` empty, line 225) carrying the
prompt feedback, or the primary candidate text `response.text`. -/
inductive ServiceOutcome where
  | raises (msg : String)
  | blocked (feedback : String)
  | text (t : String)

/-- The fence cleanup of app/utils.py lines 245-248, step for step: two
conditional strip-then-slice reassignments of `generated_content`. -/
def cleanGeneratedContent (t : String) : String :=
  let t1 := if pyStartswith (pyStrip t) "```json" then pyDrop (pyStrip t) 7 else t
  if pyEndswith (pyStrip t1) "```" then pyDropRightSlice (pyStrip t1) 3 else t1

/-- The payload returned when no API key is configured
(app/utils.py line 155). -/
def notConfiguredPayload : Json :=
  .obj [("error", .str "Gemini API key not configured on server.")]

/-- app/utils.py `generate_json_with_gemini` (lines 139-274). `loads` models
`json.loads`; `apiKey` models the `GEMINI_API_KEY` environment read (line
17, `none` = unset, and the Python falsiness test `if not GEMINI_API_KEY` also treats `""`
as unset); `service` models the configured Gemini model applied to the full
prompt. The second component counts calls to the external service. -/
def generate_json_with_gemini (loads : String → Option Json)
    (apiKey : Option String) (service : String → ServiceOutcome)
    (input_text : String) (examples : List TrainingPair) : Json × Nat :=
  if apiKey.getD "" = "" then
    (notConfiguredPayload, 0)
  else
    match service (fullPrompt input_text examples) with
    | .raises msg =>
        (.obj [("error",
          .str ("An error occurred while communicating with the AI service: " ++ msg))], 1)
    | .blocked feedback =>
        (.obj [("error",
          .str ("Content generation blocked. Feedback: " ++ feedback))], 1)
    | .text generated_content =>
        let cleaned := cleanGeneratedContent generated_content
        match loads (pyStrip cleaned) with
        | some generated_json => (generated_json, 1)
        | none =>
            (.obj [("error", .str "Failed to parse JSON from AI response."),
                   ("raw_response", .str cleaned)], 1)

/-- The persistent store: autoincrement counter plus the `training_pairs`
rows in insertion order. -/
structure Store where
  nextId : Nat
  rows : List TrainingPair

/-- app/crud.py `create_training_pair` (lines 7-36) on a healthy session:
construct the row, INSERT and COMMIT assigning the next autoincrement id.
(On a storage failure the Python function rolls back and re-raises; the
upload handler models that branch through its `dbOk` argument.) -/
def create_training_pair (db : Store) (text_content : String)
    (json_data : Json) (original_filename : Option String) : Store × TrainingPair :=
  let db_pair : TrainingPair := ⟨db.nextId, text_content, json_data, original_filename⟩
  (⟨db.nextId + 1, db.rows ++ [db_pair]⟩, db_pair)

/-- app/crud.py `get_training_examples` (lines 39-63): `ORDER BY id DESC
LIMIT limit` over the table rows; any exception while querying (modeled by
`dbRead = none`) yields `[]`. `dbRead` is the view the session has of the
`training_pairs` rows in storage order. -/
def get_training_examples (dbRead : Option (List TrainingPair)) (limit : Nat) :
    List TrainingPair :=
  match dbRead with
  | none => []
  | some rows => (rows.mergeSort (fun a b => decide (b.id ≤ a.id))).take limit

/-- app/main.py `upload_training_data` (lines 81-154): extract text from the
document (re-raising HTTP errors), parse the JSON file (re-raising HTTP
errors), then store the pair; a storage failure (`dbOk = false`) becomes a
500 with no partial write. The guard at lines 99-101 (`not extracted_text
and extracted_text != ""`) is unsatisfiable for a string, and its body only
logs, so empty extracted text flows into the store unimpeded. On success
the handler returns 201 with the confirmation message; the result carries
the updated store. -/
def upload_training_data (loads : String → Option Json) (doc_file : UploadFile)
    (json_file : JsonFile) (db : Store) (dbOk : Bool) :
    Except HTTPError (Store × String) :=
  match extract_text_from_upload doc_file with
  | .error e => .error e
  | .ok extracted_text =>
    match parse_json_upload loads json_file with
    | .error e => .error e
    | .ok json_data =>
      if dbOk then
        let created := create_training_pair db extracted_text json_data
          (some doc_file.filename)
        .ok (created.1,
          "Training data from \x27" ++ doc_file.filename ++ "\x27 and \x27" ++
            json_file.filename ++ "\x27 uploaded and stored successfully.")
      else
        .error ⟨500, .str "Failed to store training data in database."⟩

/-- The response of the query endpoint: a 200 JSON body, or an
HTTPException with status and detail. -/
inductive QueryOutcome where
  | success (body : Json)
  | failure (status : Nat) (detail : Json)

/-- app/main.py `process_query` (lines 158-233): extract text (re-raising
HTTP errors); the guard at line 174 (`not input_text and input_text != ""`)
is modeled verbatim as `input_text = "" ∧ input_text ≠ ""`; retrieve up to 5
examples (read failures degrade to `[]`); call the generation utility; a
result that is a dict containing the key `"error"` is re-raised as a 500
whose detail is the value under that key, anything else is returned as the 200
body. -/
def process_query (loads : String → Option Json) (apiKey : Option String)
    (service : String → ServiceOutcome) (doc_file : UploadFile)
    (dbRead : Option (List TrainingPair)) : QueryOutcome :=
  match extract_text_from_upload doc_file with
  | .error e => .failure e.status_code e.detail
  | .ok input_text =>
    if input_text = "" ∧ input_text ≠ "" then
      .failure 400 (.str ("Could not extract text from query document: " ++
        doc_file.filename))
    else
      let examples := get_training_examples dbRead 5
      let generated_json_result :=
        (generate_json_with_gemini loads apiKey service input_text examples).1
      match generated_json_result with
      | .obj fields =>
        match lookupField fields "error" with
        | some v => .failure 500 v
        | none => .success generated_json_result
      | _ => .success generated_json_result

/-- A small executable model of `json.loads`, used to instantiate closed
theorems: it returns `some` only on a few genuinely valid JSON texts (the
three JSON literals, the empty object and array, one fixed error object,
and unsigned integer numerals) and `none` on everything else. It is sound
wherever it succeeds, and every malformed text used below genuinely fails
under `json.loads` as well. -/
def loadsModel (s : String) : Option Json :=
  if s = "null" then some .null
  else if s = "true" then some (.bool true)
  else if s = "false" then some (.bool false)
  else if s = "\x7b\x7d" then some (.obj [])
  else if s = "[]" then some (.arr [])
  else if s = "\x7b\"error\": \"boom\"\x7d" then
    some (.obj [("error", .str "boom")])
  else if s ≠ "" ∧ s.data.all (·.isDigit) then
    some (.num (s.data.foldl (fun n c => n * 10 + (c.toNat - 48)) 0))
  else none

/-! ### String and list helper lemmas -/

theorem string_eq_of_data {a b : String} (h : a.data = b.data) : a = b :=
  String.ext h

theorem string_head_ne {a b : String} (h : a.data.head? ≠ b.data.head?) : a ≠ b :=
  fun he => h (by rw [he])

theorem listStrip_append_space (l : List Char) (c : Char) (hc : pyIsSpace c = true) :
    listStrip (l ++ [c]) = listStrip l := by
  unfold listStrip
  rw [List.dropWhile_append]
  by_cases h : (l.dropWhile pyIsSpace).isEmpty
  · rw [if_pos h]
    rw [List.isEmpty_iff] at h
    rw [h]
    simp [List.dropWhile_cons_of_pos hc]
  · rw [if_neg h]
    rw [List.reverse_append]
    simp [List.dropWhile_cons_of_pos hc]

theorem pyStrip_append_newline (s : String) : pyStrip (s ++ "\n") = pyStrip s := by
  apply string_eq_of_data
  show listStrip (s ++ "\n").data = listStrip s.data
  rw [String.data_append]
  exact listStrip_append_space s.data '\n' (by decide)

/-- Concatenation of the kept pages, each followed by a newline (the loop
body of `extract_text_from_pdf` read as a right fold). -/
def pagesConcat : List String → String
  | [] => ""
  | p :: ps => (if p ≠ "" then p ++ "\n" else "") ++ pagesConcat ps

/-- Concatenation of all fragments, each followed by a newline. -/
def trailJoin : List String → String
  | [] => ""
  | p :: ps => p ++ "\n" ++ trailJoin ps

theorem foldl_pages_eq (l : List String) (acc : String) :
    l.foldl (fun text page_text =>
        if page_text ≠ "" then text ++ page_text ++ "\n" else text) acc =
      acc ++ pagesConcat l := by
  induction l generalizing acc with
  | nil =>
      apply string_eq_of_data
      simp [pagesConcat, String.data_append]
  | cons p ps ih =>
      rw [List.foldl_cons, ih, pagesConcat]
      by_cases hp : p ≠ ""
      · rw [if_pos hp, if_pos hp]
        apply string_eq_of_data
        simp [String.data_append]
      · rw [if_neg hp, if_neg hp]
        apply string_eq_of_data
        simp [String.data_append]

theorem pagesConcat_eq_trailJoin (l : List String) :
    pagesConcat l = trailJoin (l.filter (fun p => decide (p ≠ ""))) := by
  induction l with
  | nil => rfl
  | cons p ps ih =>
      rw [pagesConcat, List.filter_cons]
      by_cases hp : p ≠ ""
      · rw [if_pos hp, if_pos (by simpa using hp), trailJoin, ih, String.append_assoc]
      · rw [if_neg hp, if_neg (by simpa using hp), ih]
        apply string_eq_of_data
        simp [String.data_append]

theorem trailJoin_eq_pyJoin (l : List String) (hl : l ≠ []) :
    trailJoin l = pyJoin "\n" l ++ "\n" := by
  induction l with
  | nil => exact absurd rfl hl
  | cons p ps ih =>
      cases ps with
      | nil =>
          rw [trailJoin, trailJoin, pyJoin]
          apply string_eq_of_data
          simp [String.data_append]
      | cons q t =>
          rw [trailJoin, ih (by simp), pyJoin]
          apply string_eq_of_data
          simp [String.data_append]

theorem pyStrip_trailJoin (l : List String) :
    pyStrip (trailJoin l) = pyStrip (pyJoin "\n" l) := by
  cases l with
  | nil => rfl
  | cons p ps =>
      rw [trailJoin_eq_pyJoin (p :: ps) (by simp), pyStrip_append_newline]

/-- C5: for every paginated-document (PDF) byte stream, extraction
concatenates the per-page text fragments in page order separated by a
newline, pages yielding no text contribute nothing, the result is trimmed
of leading and trailing whitespace, and a parse failure yields the empty
string instead of an error. -/
theorem c5_pdf_extract_spec :
    (∀ pages : List String,
      extract_text_from_pdf (some pages) =
        pyStrip (pyJoin "\n" (pages.filter (fun p => decide (p ≠ ""))))) ∧
    extract_text_from_pdf none = "" := by
  constructor
  · intro pages
    rw [extract_text_from_pdf, foldl_pages_eq]
    rw [show ("" ++ pagesConcat pages) = pagesConcat pages from
      string_eq_of_data (by simp [String.data_append])]
    rw [pagesConcat_eq_trailJoin, pyStrip_trailJoin]
  · rfl

/-- C4: `recentExamples(N)` returns at most `N` examples, ordered by
identity descending (most recently created first), and returns the empty
sequence rather than an error when the store is empty or the read fails. -/
theorem c4_recent_examples :
    ∀ (dbRead : Option (List TrainingPair)) (limit : Nat),
      (get_training_examples dbRead limit).length ≤ limit ∧
      List.Pairwise (fun a b => b.id ≤ a.id)
        (get_training_examples dbRead limit) ∧
      get_training_examples none limit = [] ∧
      get_training_examples (some []) limit = [] := by
  intro dbRead limit
  refine ⟨?_, ?_, rfl, ?_⟩
  · cases dbRead with
    | none => simp [get_training_examples]
    | some rows =>
        rw [get_training_examples, List.length_take]
        exact min_le_left _ _
  · cases dbRead with
    | none => simp [get_training_examples]
    | some rows =>
        have hs := @List.sorted_mergeSort TrainingPair
          (fun a b : TrainingPair => decide (b.id ≤ a.id))
          (fun a b c hab hbc => by
            simp only [decide_eq_true_eq] at *
            omega)
          (fun a b => by
            simp only [Bool.or_eq_true, decide_eq_true_eq]
            exact Nat.le_total b.id a.id)
          rows
        have hp : List.Pairwise (fun a b : TrainingPair => b.id ≤ a.id)
            (rows.mergeSort (fun a b => decide (b.id ≤ a.id))) :=
          hs.imp (fun h => by simpa using h)
        exact List.Pairwise.sublist (List.take_sublist _ _) hp
  · rw [get_training_examples]
    simp [List.mergeSort]

/-- C8: with no API credential configured, `generate` returns the
not-configured error payload and issues zero calls to the external service
(and therefore builds no prompt for it); the unset variable (`none`) and
the empty-string credential, both falsy in Python, behave identically. -/
theorem c8_not_configured_no_call :
    ∀ (loads : String → Option Json) (service : String → ServiceOutcome)
      (input_text : String) (examples : List TrainingPair),
      generate_json_with_gemini loads none service input_text examples =
        (notConfiguredPayload, 0) ∧
      generate_json_with_gemini loads (some "") service input_text examples =
        (notConfiguredPayload, 0) := by
  intro loads service input_text examples
  exact ⟨rfl, rfl⟩

/-- C9: an uploaded file whose declared MIME type is neither the PDF nor
the DOCX type is rejected with the 400 UnsupportedFormat error, and the
result does not depend on the content of the file (the check precedes the
read). -/
theorem c9_unsupported_type_rejected :
    ∀ (f : UploadFile),
      f.content_type ∉ SUPPORTED_DOC_TYPES →
      extract_text_from_upload f =
        .error ⟨400, .str ("Unsupported file type: " ++ f.content_type ++
          ". Please upload PDF or DOCX.")⟩ ∧
      ∀ body2 : Except String DocContent,
        extract_text_from_upload ⟨f.filename, f.content_type, body2⟩ =
          extract_text_from_upload f := by
  intro f h
  constructor
  · rw [extract_text_from_upload, if_pos (by simpa using h)]
  · intro body2
    rw [extract_text_from_upload, extract_text_from_upload]
    rw [if_pos (by simpa using h), if_pos (by simpa using h)]

/-- Witness for C9 at a concrete plain-text upload. -/
theorem c9_witness :
    extract_text_from_upload ⟨"notes.txt", "text/plain",
        Except.ok ⟨some ["page"], none⟩⟩ =
      .error ⟨400, .str "Unsupported file type: text/plain. Please upload PDF or DOCX."⟩ := by
  have h := c9_unsupported_type_rejected
    ⟨"notes.txt", "text/plain", Except.ok ⟨some ["page"], none⟩⟩ (by decide)
  exact h.1

/-- C7: JSON uploads with a content type other than exactly
`application/json` fail with the InvalidContentType 400 regardless of the
body; a correct content type with undecodable bytes fails with the distinct
MalformedJSON 400; valid JSON is returned parsed; and the two client errors
are distinct values. -/
theorem c7_json_upload_parse :
    ∀ (loads : String → Option Json) (fn ct : String)
      (body : Except String String),
      (ct ≠ "application/json" →
        parse_json_upload loads ⟨fn, ct, body⟩ =
          .error ⟨400, .str "JSON file must have content type \x27application/json\x27"⟩) ∧
      (∀ content : String, loads content = none →
        parse_json_upload loads ⟨fn, "application/json", .ok content⟩ =
          .error ⟨400, .str "Invalid JSON file format"⟩) ∧
      (∀ (content : String) (j : Json), loads content = some j →
        parse_json_upload loads ⟨fn, "application/json", .ok content⟩ = .ok j) ∧
      (HTTPError.mk 400 (.str "JSON file must have content type \x27application/json\x27") ≠
        HTTPError.mk 400 (.str "Invalid JSON file format")) := by
  intro loads fn ct body
  refine ⟨?_, ?_, ?_, ?_⟩
  · intro hct
    rw [parse_json_upload, if_pos hct]
  · intro content hc
    rw [parse_json_upload, if_neg (by simp)]
    simp only [hc]
  · intro content j hc
    rw [parse_json_upload, if_neg (by simp)]
    simp only [hc]
  · intro h
    have := congrArg HTTPError.detail h
    simp only [Json.str.injEq] at this
    exact absurd this (by decide)

/-- Witness for C7 at concrete uploads, one per branch. -/
theorem c7_witness :
    parse_json_upload loadsModel ⟨"a.json", "text/plain", .ok "null"⟩ =
      .error ⟨400, .str "JSON file must have content type \x27application/json\x27"⟩ ∧
    parse_json_upload loadsModel ⟨"a.json", "application/json", .ok "not json"⟩ =
      .error ⟨400, .str "Invalid JSON file format"⟩ ∧
    parse_json_upload loadsModel ⟨"a.json", "application/json", .ok "null"⟩ =
      .ok Json.null := by
  refine ⟨?_, ?_, ?_⟩
  · exact (c7_json_upload_parse loadsModel "a.json" "text/plain" (.ok "null")).1
      (by decide)
  · exact (c7_json_upload_parse loadsModel "a.json" "application/json"
      (.ok "not json")).2.1 "not json" rfl
  · exact (c7_json_upload_parse loadsModel "a.json" "application/json"
      (.ok "null")).2.2.1 "null" Json.null rfl

/-- C2 counterexample: a fenced malformed completion. The service returns
the text `"```json\nnot-json\n```"`; the parse fails, and the
`raw_response` field of the payload is the fence-stripped `"not-json\n"`, not the original
text. -/
theorem c2_counterexample :
    (generate_json_with_gemini loadsModel (some "key")
        (fun _ => ServiceOutcome.text "```json\nnot-json\n```") "input" []).1 =
      Json.obj [("error", .str "Failed to parse JSON from AI response."),
                ("raw_response", .str "not-json\n")] ∧
    "not-json\n" ≠ "```json\nnot-json\n```" := by
  exact ⟨rfl, by decide⟩

/-- C2 amended: on a completion text whose cleaned form fails to parse, the
`raw_response` field of the error payload equals the completion text after the
defensive fence-marker stripping (app/utils.py lines 245-248) — which
coincides with the original text verbatim exactly when neither a leading
```json marker nor a trailing ``` marker was found. -/
theorem c2_raw_is_fence_stripped :
    ∀ (loads : String → Option Json) (apiKey : String)
      (service : String → ServiceOutcome) (input_text : String)
      (examples : List TrainingPair) (t : String),
      apiKey ≠ "" →
      service (fullPrompt input_text examples) = .text t →
      loads (pyStrip (cleanGeneratedContent t)) = none →
      (generate_json_with_gemini loads (some apiKey) service input_text examples).1 =
        Json.obj [("error", .str "Failed to parse JSON from AI response."),
                  ("raw_response", .str (cleanGeneratedContent t))] ∧
      (pyStartswith (pyStrip t) "```json" = false →
        pyEndswith (pyStrip t) "```" = false →
        cleanGeneratedContent t = t) := by
  intro loads apiKey service input_text examples t hkey hserv hloads
  constructor
  · rw [generate_json_with_gemini, if_neg (by simpa using hkey), hserv]
    simp only [hloads]
  · intro h1 h2
    simp [cleanGeneratedContent, h1, h2]

/-- Witness for the amended C2 theorem at a fence-free completion. -/
theorem c2_witness :
    (generate_json_with_gemini loadsModel (some "key")
        (fun _ => ServiceOutcome.text "oops") "" []).1 =
      Json.obj [("error", .str "Failed to parse JSON from AI response."),
                ("raw_response", .str "oops")] ∧
    cleanGeneratedContent "oops" = "oops" := by
  have h := c2_raw_is_fence_stripped loadsModel "key"
    (fun _ => ServiceOutcome.text "oops") "" [] "oops" (by decide) rfl rfl
  exact ⟨h.1, h.2 rfl rfl⟩

/-- C3 counterexample: an upload whose document has the supported PDF type
but unparseable bytes (extraction degrades to `""`), paired with a valid
JSON file, is accepted and persists a record whose text content is the
empty string. -/
theorem c3_counterexample :
    (upload_training_data loadsModel
        ⟨"bad.pdf", "application/pdf", Except.ok ⟨none, none⟩⟩
        ⟨"ann.json", "application/json", Except.ok "null"⟩
        ⟨1, []⟩ true).map (fun r => r.1.rows.map (fun row => row.text_content)) =
      Except.ok [""] := by
  rfl

/-- C3 amended: the upload path persists exactly one record whose text
content equals the extracted text of the document unchanged — which may be the
empty string (extraction failure is not rejected), so non-emptiness of the
persisted text is not guaranteed. -/
theorem c3_persisted_text_is_extracted :
    ∀ (loads : String → Option Json) (doc_file : UploadFile)
      (json_file : JsonFile) (db : Store) (text : String) (j : Json),
      extract_text_from_upload doc_file = .ok text →
      parse_json_upload loads json_file = .ok j →
      upload_training_data loads doc_file json_file db true =
        .ok (⟨db.nextId + 1,
              db.rows ++ [⟨db.nextId, text, j, some doc_file.filename⟩]⟩,
          "Training data from \x27" ++ doc_file.filename ++ "\x27 and \x27" ++
            json_file.filename ++ "\x27 uploaded and stored successfully.") := by
  intro loads doc_file json_file db text j hext hparse
  rw [upload_training_data, hext, hparse]
  rfl

/-- Witness for the amended C3 theorem at a concrete successful upload. -/
theorem c3_witness :
    upload_training_data loadsModel
        ⟨"doc.pdf", "application/pdf", Except.ok ⟨some ["hello"], none⟩⟩
        ⟨"ann.json", "application/json", Except.ok "null"⟩
        ⟨1, []⟩ true =
      .ok (⟨2, [⟨1, "hello", Json.null, some "doc.pdf"⟩]⟩,
        "Training data from \x27doc.pdf\x27 and \x27ann.json\x27 uploaded and stored successfully.") := by
  exact c3_persisted_text_is_extracted loadsModel
    ⟨"doc.pdf", "application/pdf", Except.ok ⟨some ["hello"], none⟩⟩
    ⟨"ann.json", "application/json", Except.ok "null"⟩
    ⟨1, []⟩ "hello" Json.null rfl rfl

/-- The 1-based label part opening example block `i` in the prompt. -/
def exampleLabel (i : Nat) : String :=
  "\nExample " ++ toString i ++ ":"

/-- Whether a prompt part is an example label ("Example i" block opener). -/
def isExampleLabelPart (s : String) : Bool :=
  pyStartswith s "\nExample "

theorem isPrefixOf_append_self (l r : List Char) : l.isPrefixOf (l ++ r) = true := by
  induction l with
  | nil => simp [List.isPrefixOf]
  | cons a as ih => simp [List.isPrefixOf, ih]

theorem pyStartswith_ne_head (s pre : String) (c d : Char)
    (hs : s.data.head? = some c) (hp : pre.data.head? = some d)
    (hcd : (d == c) = false) : pyStartswith s pre = false := by
  unfold pyStartswith
  cases hsd : s.data with
  | nil => rw [hsd] at hs; cases hs
  | cons x xs =>
    cases hpd : pre.data with
    | nil => rw [hpd] at hp; cases hp
    | cons y ys =>
      rw [hsd] at hs
      rw [hpd] at hp
      injection hs with hx
      injection hp with hy
      subst hx
      subst hy
      simp [List.isPrefixOf, hcd]

theorem isExampleLabelPart_label (i : Nat) :
    isExampleLabelPart (exampleLabel i) = true := by
  unfold isExampleLabelPart pyStartswith exampleLabel
  rw [String.data_append, String.data_append, List.append_assoc]
  exact isPrefixOf_append_self _ _

theorem isExampleLabelPart_fencedText (t : String) :
    isExampleLabelPart ("```\n" ++ t ++ "\n```") = false :=
  pyStartswith_ne_head _ _ '`' '\n' rfl rfl (by decide)

theorem isExampleLabelPart_fencedJson (t : String) :
    isExampleLabelPart ("```json\n" ++ t ++ "\n```") = false :=
  pyStartswith_ne_head _ _ '`' '\n' rfl rfl (by decide)

theorem filter_examplePromptParts (i : Nat) (ex : TrainingPair) :
    (examplePromptParts i ex).filter isExampleLabelPart = [exampleLabel i] := by
  have h1 : isExampleLabelPart ("\nExample " ++ toString i ++ ":") = true :=
    isExampleLabelPart_label i
  have h2 : isExampleLabelPart "Input Text:" = false := rfl
  have h3 := isExampleLabelPart_fencedText ex.text_content
  have h4 : isExampleLabelPart "Output JSON:" = false := rfl
  have h5 := isExampleLabelPart_fencedJson (pyJsonDumps2 ex.json_data)
  simp [examplePromptParts, List.filter, h1, h2, h3, h4, h5, exampleLabel]

theorem filter_examplesPromptParts (i : Nat) (exs : List TrainingPair) :
    (examplesPromptParts i exs).filter isExampleLabelPart =
      (List.range exs.length).map (fun k => exampleLabel (i + k + 1)) := by
  induction exs generalizing i with
  | nil => rfl
  | cons ex rest ih =>
      rw [examplesPromptParts, List.filter_append, filter_examplePromptParts, ih]
      rw [List.length_cons, List.range_succ_eq_map, List.map_cons, List.map_map]
      simp only [List.cons_append, List.nil_append]
      congr 1
      apply List.map_congr_left
      intro a _
      simp only [Function.comp]
      congr 1
      omega

theorem filter_promptFooter (input_text : String) :
    (promptFooter input_text).filter isExampleLabelPart = [] := by
  have h1 : isExampleLabelPart "\n--- New Input Text ---" = false := rfl
  have h2 := isExampleLabelPart_fencedText input_text
  have h3 : isExampleLabelPart "\n--- Generated JSON Output ---" = false := rfl
  simp [promptFooter, List.filter, h1, h2, h3]

theorem filter_promptParts (input_text : String) (examples : List TrainingPair) :
    (promptParts input_text examples).filter isExampleLabelPart =
      (List.range examples.length).map (fun k => exampleLabel (k + 1)) := by
  rw [promptParts, List.filter_append, List.filter_append]
  cases examples with
  | nil =>
      rw [filter_promptFooter]
      rfl
  | cons ex rest =>
      rw [if_neg (by simp), filter_examplesPromptParts, filter_promptFooter]
      rw [show promptHeader.filter isExampleLabelPart = [] from rfl]
      simp only [List.nil_append, List.append_nil]
      apply List.map_congr_left
      intro a _
      congr 1
      omega

theorem examplesPromptParts_eq_enumFrom (i : Nat) (exs : List TrainingPair) :
    examplesPromptParts i exs =
      ((List.enumFrom i exs).map (fun p => examplePromptParts (p.1 + 1) p.2)).flatten := by
  induction exs generalizing i with
  | nil => rfl
  | cons ex rest ih =>
      rw [examplesPromptParts, ih (i + 1)]
      rfl

theorem mem_pyJoin_data_isInf (sep : String) (parts : List String) (s : String)
    (hs : s ∈ parts) : s.data <:+: (pyJoin sep parts).data := by
  induction parts with
  | nil => cases hs
  | cons x rest ih =>
      cases rest with
      | nil =>
          cases hs with
          | head => exact List.infix_refl _
          | tail _ h => cases h
      | cons y t =>
          cases hs with
          | head =>
              refine ⟨[], sep.data ++ (pyJoin sep (y :: t)).data, ?_⟩
              rw [pyJoin, String.data_append, String.data_append]
              simp [List.append_assoc]
          | tail _ h =>
              obtain ⟨u, v, huv⟩ := ih h
              refine ⟨(x.data ++ sep.data) ++ u, v, ?_⟩
              rw [pyJoin, String.data_append, String.data_append, ← huv]
              simp [List.append_assoc]

/-- C6: with zero examples the prompt contains the no-examples explanatory
sentence and no "Example" block; with k examples the prompt parts are the
fixed header, then for each supplied example in order its "Example i" label
(i = 1..k), its text verbatim in a fenced block and its annotation as
indented JSON in a fenced json block, then the footer; the parts that are
example labels are exactly "Example 1" .. "Example k" in order, and each
label (resp. the no-examples sentence) occurs inside the joined prompt. -/
theorem c6_prompt_blocks :
    ∀ (input_text : String) (examples : List TrainingPair),
      promptParts input_text examples =
        promptHeader ++
          (if examples.isEmpty then [noExamplesNote]
            else ((List.enumFrom 0 examples).map
              (fun p => examplePromptParts (p.1 + 1) p.2)).flatten) ++
          promptFooter input_text ∧
      (promptParts input_text examples).filter isExampleLabelPart =
        (List.range examples.length).map (fun k => exampleLabel (k + 1)) ∧
      (examples = [] →
        noExamplesNote ∈ promptParts input_text examples ∧
        (promptParts input_text examples).filter isExampleLabelPart = [] ∧
        noExamplesNote.data <:+: (fullPrompt input_text examples).data) ∧
      (∀ k, k < examples.length →
        (exampleLabel (k + 1)).data <:+: (fullPrompt input_text examples).data) := by
  intro input_text examples
  have hfilter := filter_promptParts input_text examples
  refine ⟨?_, hfilter, ?_, ?_⟩
  · rw [promptParts]
    cases examples with
    | nil => rfl
    | cons ex rest =>
        rw [if_neg (by simp), if_neg (by simp), examplesPromptParts_eq_enumFrom]
  · intro h
    subst h
    refine ⟨?_, hfilter.trans rfl, ?_⟩
    · simp [promptParts]
    · exact mem_pyJoin_data_isInf "\n" _ _ (by simp [promptParts])
  · intro k hk
    have hmem : exampleLabel (k + 1) ∈
        (promptParts input_text examples).filter isExampleLabelPart := by
      rw [hfilter]
      exact List.mem_map.mpr ⟨k, List.mem_range.mpr hk, rfl⟩
    exact mem_pyJoin_data_isInf "\n" _ _ (List.mem_of_mem_filter hmem)

/-- Witness for C6 at concrete zero-example and one-example prompts. -/
theorem c6_witness :
    noExamplesNote ∈ promptParts "query" [] ∧
    (exampleLabel 1).data <:+: (fullPrompt "q" [⟨1, "t", Json.null, none⟩]).data := by
  refine ⟨?_, ?_⟩
  · exact ((c6_prompt_blocks "query" []).2.2.1 rfl).1
  · exact (c6_prompt_blocks "q" [⟨1, "t", Json.null, none⟩]).2.2.2 0 (by decide)

/-- C10: when generation succeeds and the (parsed) result handed back by
the utility is a JSON object containing the top-level key "error", the
query endpoint re-raises it as a 500 whose detail is the value under that key — a
legitimately parsed annotation containing "error" is never returned as a
200 success. -/
theorem c10_error_key_becomes_500 :
    ∀ (loads : String → Option Json) (apiKey : String)
      (service : String → ServiceOutcome) (doc_file : UploadFile)
      (dbRead : Option (List TrainingPair)) (input_text t : String)
      (fields : List (String × Json)) (v : Json),
      apiKey ≠ "" →
      extract_text_from_upload doc_file = .ok input_text →
      service (fullPrompt input_text (get_training_examples dbRead 5)) = .text t →
      loads (pyStrip (cleanGeneratedContent t)) = some (Json.obj fields) →
      lookupField fields "error" = some v →
      process_query loads (some apiKey) service doc_file dbRead =
        .failure 500 v := by
  intro loads apiKey service doc_file dbRead input_text t fields v
    hkey hext hserv hloads hlook
  simp only [process_query, hext]
  rw [if_neg (fun h => h.2 h.1)]
  simp only [generate_json_with_gemini]
  rw [if_neg (by simpa using hkey), hserv]
  simp only [hloads, hlook]

/-- Witness for C10: a service completion that is the valid JSON object
with key "error" is reported as a 500 carrying the value under that key. -/
theorem c10_witness :
    process_query loadsModel (some "key")
        (fun _ => ServiceOutcome.text "\x7b\"error\": \"boom\"\x7d")
        ⟨"q.pdf", "application/pdf", Except.ok ⟨some ["hello"], none⟩⟩
        (some []) =
      .failure 500 (.str "boom") := by
  exact c10_error_key_becomes_500 loadsModel "key"
    (fun _ => ServiceOutcome.text "\x7b\"error\": \"boom\"\x7d")
    ⟨"q.pdf", "application/pdf", Except.ok ⟨some ["hello"], none⟩⟩
    (some []) "hello" "\x7b\"error\": \"boom\"\x7d"
    [("error", .str "boom")] (.str "boom")
    (by decide) rfl rfl rfl rfl

/-- Whether a query outcome is the 400 "could not extract text" rejection
that app/main.py lines 174-180 intends for empty extracted text. -/
def isEmptyTextRejection (fn : String) : QueryOutcome → Bool
  | .failure status (.str detail) =>
      status == 400 &&
        detail == ("Could not extract text from query document: " ++ fn)
  | _ => false

theorem unsupported_detail_ne_couldnot (ct fn : String) :
    ("Unsupported file type: " ++ ct ++ ". Please upload PDF or DOCX.") ≠
      ("Could not extract text from query document: " ++ fn) :=
  string_head_ne (by rw [show ("Unsupported file type: " ++ ct ++
      ". Please upload PDF or DOCX.").data.head? = some 'U' from rfl,
    show ("Could not extract text from query document: " ++ fn).data.head? =
      some 'C' from rfl]; decide)

theorem extract_error_cases (f : UploadFile) (e : HTTPError)
    (h : extract_text_from_upload f = .error e) :
    e.status_code = 500 ∨
      e = ⟨400, .str ("Unsupported file type: " ++ f.content_type ++
        ". Please upload PDF or DOCX.")⟩ := by
  rw [extract_text_from_upload] at h
  split at h
  · right
    injection h with h2
    rw [← h2]
  · cases hb : f.body with
    | error msg =>
        simp only [hb] at h
        left
        injection h with h2
        rw [← h2]
    | ok content =>
        simp only [hb] at h
        by_cases hc : f.content_type = "application/pdf"
        · rw [if_pos hc] at h
          cases h
        · rw [if_neg hc] at h
          by_cases hd : f.content_type =
              "application/vnd.openxmlformats-officedocument.wordprocessingml.document"
          · rw [if_pos hd] at h
            cases h
          · rw [if_neg hd] at h
            cases h

/-- C1 (code evaluation): the guard `not input_text and input_text != ""`
at app/main.py line 174 is unsatisfiable for a string, so a query document
of a supported type whose bytes cannot be parsed (extracted text `""`)
is NOT answered with the 400 "could not extract text" rejection: concretely
the endpoint proceeds to example retrieval and generation and returns the
generation result, and in general no execution of the endpoint ever
produces that rejection. -/
theorem c1_empty_text_guard_dead :
    process_query loadsModel (some "key") (fun _ => ServiceOutcome.text "\x7b\x7d")
        ⟨"bad.pdf", "application/pdf", Except.ok ⟨none, none⟩⟩ (some []) =
      QueryOutcome.success (Json.obj []) ∧
    ∀ (loads : String → Option Json) (apiKey : Option String)
      (service : String → ServiceOutcome) (doc_file : UploadFile)
      (dbRead : Option (List TrainingPair)),
      isEmptyTextRejection doc_file.filename
        (process_query loads apiKey service doc_file dbRead) = false := by
  constructor
  · rfl
  · intro loads apiKey service doc_file dbRead
    cases hE : extract_text_from_upload doc_file with
    | error e =>
        simp only [process_query, hE]
        rcases extract_error_cases doc_file e hE with h5 | h4
        · cases e with
          | mk st d =>
              simp only [HTTPError.status_code] at h5
              subst h5
              cases d <;> simp [isEmptyTextRejection]
        · subst h4
          simp only [isEmptyTextRejection, HTTPError.status_code, HTTPError.detail]
          rw [show ((400 : Nat) == 400) = true from rfl, Bool.true_and]
          exact beq_eq_false_iff_ne.mpr
            (unsupported_detail_ne_couldnot doc_file.content_type doc_file.filename)
    | ok input_text =>
        simp only [process_query, hE]
        rw [if_neg (fun h => h.2 h.1)]
        cases hg : (generate_json_with_gemini loads apiKey service input_text
            (get_training_examples dbRead 5)).1 with
        | obj fields =>
            cases hl : lookupField fields "error" with
            | some v => cases v <;> simp [isEmptyTextRejection, hl]
            | none => simp [isEmptyTextRejection, hl]
        | null => simp [isEmptyTextRejection]
        | bool b => simp [isEmptyTextRejection]
        | num n => simp [isEmptyTextRejection]
        | str s => simp [isEmptyTextRejection]
        | arr items => simp [isEmptyTextRejection]
